import Mathlib

/-!
Verification of the biotite excerpts: the `RNAfoldApp` external-application
wrapper (`src/biotite/application/viennarna/rnafold.py`) and the `XTCFile`
output-index lookup (`src/biopython/structure/io/xtc/file.py`).

Python strings are modelled as `String`, Python `float` results as `ℚ`
(the numeric tokens involved are finite decimals), fallible Python code as
`Except PyError`, and Python attributes that may be unset as `Option` fields.
All helper functions are defined by structural recursion over `List Char`
so that concrete runs reduce by `decide`/`rfl`.
-/

deriving instance DecidableEq for Except

/-- The Python exception kinds that the modelled code can raise. -/
inductive PyError where
  | stateError
  | indexError
  | valueError
  | formatError
  | attributeError
  deriving DecidableEq, Repr

/-- Warning categories emitted via `warnings.warn`. -/
inductive PyWarning where
  | deprecationWarning
  deriving DecidableEq, Repr

/-- Helper for `pySplitlines`: walk the characters, `pending` holds the
(reversed) characters of the current line. -/
def linesAux : List Char → List Char → List String
  | [], pending => if pending.isEmpty then [] else [String.mk pending.reverse]
  | c :: cs, pending =>
    if c = '\n' then String.mk pending.reverse :: linesAux cs []
    else linesAux cs (c :: pending)

/-- Python `str.splitlines()` restricted to `\n` separators: each newline
terminates a line, a final segment without a trailing newline is also a
line, and the empty string yields `[]`. -/
def pySplitlines (s : String) : List String :=
  linesAux s.data []

/-- Python `s.split(" ", maxsplit=1)` when a space is present: the text
before the first space and the text after it.  `none` when `s` has no
space (Python then returns a one-element list, so unpacking into two
variables raises `ValueError`). -/
def pySplitFirstSpace (s : String) : Option (String × String) :=
  match s.data.findIdx? (fun c => c = ' ') with
  | none => none
  | some i => some (⟨s.data.take i⟩, ⟨s.data.drop (i + 1)⟩)

/-- Python `s[1:-1]`: drop the first and the last character. -/
def pySlice1Neg1 (s : String) : String :=
  ⟨(s.data.drop 1).dropLast⟩

/-- Python `str.strip()` on a character list: drop leading and trailing
whitespace. -/
def pyStrip (cs : List Char) : List Char :=
  ((cs.dropWhile (fun c => c.isWhitespace)).reverse.dropWhile
    (fun c => c.isWhitespace)).reverse

/-- Digits-to-nat accumulator for decimal parsing. -/
def digitsToNat (cs : List Char) : Nat :=
  cs.foldl (fun acc c => acc * 10 + (c.toNat - '0'.toNat)) 0

/-- Python `float(s)` restricted to the finite-decimal forms the modelled
tool emits: optional surrounding whitespace, an optional sign, then
digits with at most one decimal point (at least one digit overall).
Returns the exact rational value; `none` models `ValueError`. -/
def pyFloat (s : String) : Option ℚ :=
  let cs := pyStrip s.data
  let signBody : Bool × List Char :=
    match cs with
    | '-' :: rest => (true, rest)
    | '+' :: rest => (false, rest)
    | rest => (false, rest)
  let isNeg := signBody.1
  let body := signBody.2
  let signed : Nat → Int := fun n => if isNeg then -(n : Int) else (n : Int)
  let intPart := body.takeWhile (fun c => c.isDigit)
  let rest := body.dropWhile (fun c => c.isDigit)
  match rest with
  | [] =>
      if intPart.isEmpty then none
      else some (mkRat (signed (digitsToNat intPart)) 1)
  | '.' :: fracPart =>
      if fracPart.all (fun c => c.isDigit) && !(intPart.isEmpty && fracPart.isEmpty) then
        some (mkRat
          (signed (digitsToNat intPart * 10 ^ fracPart.length + digitsToNat fracPart))
          (10 ^ fracPart.length))
      else none
  | _ => none

/-- The parsing step of `RNAfoldApp.evaluate`:
`lines = stdout.splitlines(); content = lines[2];
dotbracket, free_energy = content.split(" ", maxsplit=1);
free_energy = float(free_energy[1:-1])`.
Missing third line raises `IndexError`; a line without a space raises
`ValueError` (tuple unpacking); a malformed numeric token raises
`ValueError` (from `float`). -/
def evaluateParse (stdoutText : String) : Except PyError (String × ℚ) :=
  match (pySplitlines stdoutText).get? 2 with
  | none => .error .indexError
  | some content =>
    match pySplitFirstSpace content with
    | none => .error .valueError
    | some (dotbracket, energyTok) =>
      match pyFloat (pySlice1Neg1 energyTok) with
      | none => .error .valueError
      | some fe => .ok (dotbracket, fe)

/-- Helper for the dot-bracket decoder: scan the characters left to right
with running index `i`; `stack` holds the indices of currently unmatched
opening symbols, `acc` the emitted pairs in reverse order. -/
def decodeLoop : List Char → Nat → List Nat → List (Nat × Nat) →
    Except PyError (List (Nat × Nat))
  | [], _, [], acc => .ok acc.reverse
  | [], _, _ :: _, _ => .error .formatError
  | c :: cs, i, stack, acc =>
    if c = '(' then decodeLoop cs (i + 1) (i :: stack) acc
    else if c = ')' then
      match stack with
      | [] => .error .formatError
      | j :: rest => decodeLoop cs (i + 1) rest ((j, i) :: acc)
    else decodeLoop cs (i + 1) stack acc

/-- Modelled from the spec: `base_pairs_from_dot_bracket` lives in
`biotite.structure.dotbracket`, which is not among the provided sources.
The spec describes it as the canonical decoding: scan the fold notation
left to right, push the index on an opening symbol, pop the last
unmatched open and emit the pair on a closing symbol; FormatError if a
close has no matching open or opens remain unmatched at end of string. -/
def base_pairs_from_dot_bracket (db : String) : Except PyError (List (Nat × Nat)) :=
  decodeLoop db.data 0 [] []

/-- Number of opening symbols in a character list. -/
def opensCount : List Char → Nat
  | [] => 0
  | c :: cs => (if c = '(' then 1 else 0) + opensCount cs

/-- Number of closing symbols in a character list. -/
def closesCount : List Char → Nat
  | [] => 0
  | c :: cs => (if c = ')' then 1 else 0) + closesCount cs

/-- Job lifecycle states.  Modelled from the spec: the state enumeration
and the `requires_state` decorator live in `biotite.application`, not
among the provided sources; the spec gives CREATED → RUNNING → FINISHED
→ JOINED plus terminal FAILED. -/
inductive AppState where
  | CREATED
  | RUNNING
  | FINISHED
  | JOINED
  | FAILED
  deriving DecidableEq, Repr

/-- The `RNAfoldApp` object: constructor arguments, the FASTA input
record, the process argument list, the lifecycle state, the captured
stdout, and the three result attributes.  `mfeAttr` models the attribute
`self._mfe`, which no code in the source ever assigns. -/
structure RNAfoldApp where
  seqStr : String
  temperature : Int
  temperatureStr : String
  binPath : String
  inputRecord : String
  arguments : List String
  state : AppState
  capturedStdout : Option String
  freeEnergyAttr : Option ℚ
  dotbracketAttr : Option String
  mfeAttr : Option ℚ
  deriving DecidableEq, Repr

/-- Modelled from the spec: `FastaFile`/`set_sequence` live in
`biotite.sequence.io.fasta`, not among the provided sources; the spec
calls the input "a minimal single-sequence record" / "a FASTA-like
record", so the record is a single header line followed by the sequence. -/
def fastaRecord (sequence : String) : String :=
  ">sequence\n" ++ sequence ++ "\n"

/-- `RNAfoldApp.__init__(sequence, temperature=37, bin_path="RNAfold")`:
builds the FASTA record, hands record/temperature/path to the base class
and stores `str(temperature)`. -/
def RNAfoldApp.init (sequence : String) (temperature : Int) (binPath : String) :
    RNAfoldApp :=
  ⟨sequence, temperature, toString temperature, binPath, fastaRecord sequence,
    [], .CREATED, none, none, none, none⟩

/-- Construction with both defaulted parameters: `RNAfoldApp(sequence)`. -/
def RNAfoldApp.initDefault (sequence : String) : RNAfoldApp :=
  RNAfoldApp.init sequence 37 "RNAfold"

/-- `RNAfoldApp.accepts_stdin()`: the input record is piped to stdin. -/
def RNAfoldApp.accepts_stdin : Bool := true

/-- `RNAfoldApp.run`: `self.set_arguments(["--noPS"])` then the base
class spawns the process. -/
def RNAfoldApp.run (app : RNAfoldApp) : RNAfoldApp :=
  { app with arguments := ["--noPS"] }

/-- Modelled from the spec: `start()` is base-class code not among the
provided sources; it requires CREATED (StateError otherwise), invokes
`run` (which sets the argument list and spawns the process) and moves to
RUNNING. -/
def RNAfoldApp.start (app : RNAfoldApp) : Except PyError RNAfoldApp :=
  if app.state = .CREATED then .ok { app.run with state := .RUNNING }
  else .error .stateError

/-- `RNAfoldApp.evaluate` applied to the captured stdout: parses the
third line and assigns `self._free_energy` and `self._dotbracket`. -/
def RNAfoldApp.evaluate (stdoutText : String) (app : RNAfoldApp) :
    Except PyError RNAfoldApp :=
  match evaluateParse stdoutText with
  | .ok (db, fe) => .ok { app with freeEnergyAttr := some fe, dotbracketAttr := some db }
  | .error e => .error e

/-- Modelled from the spec: `join()` is base-class code not among the
provided sources; it blocks until the process exits (`stdoutText` is the
output the external binary produced), captures stdout (FINISHED), then
calls `evaluate`; on success the state becomes JOINED, on a parse
failure the job transitions to FAILED and the error surfaces. -/
def RNAfoldApp.join (stdoutText : String) (app : RNAfoldApp) :
    RNAfoldApp × Option PyError :=
  if app.state = .RUNNING then
    let fin : RNAfoldApp :=
      { app with capturedStdout := some stdoutText, state := .FINISHED }
    match RNAfoldApp.evaluate stdoutText fin with
    | .ok app' => ({ app' with state := .JOINED }, none)
    | .error e => ({ fin with state := .FAILED }, some e)
  else (app, some .stateError)

/-- `RNAfoldApp.get_free_energy`: `requires_state(JOINED)`, then
`return self._free_energy`.  The returned app is the (unmodified) self. -/
def RNAfoldApp.get_free_energy (app : RNAfoldApp) :
    Except PyError (ℚ × RNAfoldApp) :=
  if app.state = .JOINED then
    match app.freeEnergyAttr with
    | some fe => .ok (fe, app)
    | none => .error .attributeError
  else .error .stateError

/-- `RNAfoldApp.get_mfe`: `requires_state(JOINED)`, then
`warnings.warn(..., DeprecationWarning)`, then `return self._mfe`.
The first component lists the warnings the call emitted. -/
def RNAfoldApp.get_mfe (app : RNAfoldApp) :
    List PyWarning × Except PyError (ℚ × RNAfoldApp) :=
  if app.state = .JOINED then
    ([.deprecationWarning],
      match app.mfeAttr with
      | some v => .ok (v, app)
      | none => .error .attributeError)
  else ([], .error .stateError)

/-- `RNAfoldApp.get_dot_bracket`: `requires_state(JOINED)`, then
`return self._dotbracket`. -/
def RNAfoldApp.get_dot_bracket (app : RNAfoldApp) :
    Except PyError (String × RNAfoldApp) :=
  if app.state = .JOINED then
    match app.dotbracketAttr with
    | some db => .ok (db, app)
    | none => .error .attributeError
  else .error .stateError

/-- `RNAfoldApp.get_base_pairs`: `requires_state(JOINED)`, then
`return base_pairs_from_dot_bracket(self._dotbracket)` — recomputed on
every call, nothing is cached. -/
def RNAfoldApp.get_base_pairs (app : RNAfoldApp) :
    Except PyError (List (Nat × Nat) × RNAfoldApp) :=
  if app.state = .JOINED then
    match app.dotbracketAttr with
    | none => .error .attributeError
    | some db =>
      match base_pairs_from_dot_bracket db with
      | .ok ps => .ok (ps, app)
      | .error e => .error e
  else .error .stateError

/-- `RNAfoldApp.compute_secondary_structure(sequence, bin_path)`: build
the app (default temperature), start, join, and return
`(app.get_dot_bracket(), app.get_free_energy())`.  `stdoutText` is the
output the external binary produced for the piped input. -/
def RNAfoldApp.compute_secondary_structure (stdoutText sequence binPath : String) :
    Except PyError (String × ℚ) := do
  let app := RNAfoldApp.init sequence 37 binPath
  let started ← app.start
  match started.join stdoutText with
  | (joined, none) => do
    let (db, _) ← joined.get_dot_bracket
    let (fe, _) ← joined.get_free_energy
    .ok (db, fe)
  | (_, some e) => .error e

/-- `XTCFile.output_value_index`: returns 0 for "coord", 1 for "time",
3 for "box", and falls off the end (Python: returns `None`) otherwise. -/
def output_value_index (value : String) : Option Nat :=
  if value = "coord" then some 0
  else if value = "time" then some 1
  else if value = "box" then some 3
  else none

/-- The stdout the RNAfold binary produces for the docstring example
sequence: banner-free FASTA echo, the sequence, then the result line. -/
def exampleStdout : String :=
  ">sequence\nCGACGUAGAUGCUAGCUGACUCGAUGC\n(((.((((.......)).))))).... ( -1.30)\n"

/-- The app after the docstring example run: joined, stdout captured,
`_free_energy` and `_dotbracket` assigned by `evaluate`, `_mfe` unset. -/
def exampleJoined : RNAfoldApp :=
  ⟨"CGACGUAGAUGCUAGCUGACUCGAUGC", 37, "37", "RNAfold",
    fastaRecord "CGACGUAGAUGCUAGCUGACUCGAUGC", ["--noPS"], .JOINED,
    some exampleStdout, some (mkRat (-13) 10),
    some "(((.((((.......)).)))))....", none⟩

theorem if_open_close {α : Sort _} (a b : α) : (if ('(' : Char) = ')' then a else b) = b :=
  if_neg (by decide)

theorem if_close_open {α : Sort _} (a b : α) : (if (')' : Char) = '(' then a else b) = b :=
  if_neg (by decide)

theorem decodeLoop_ok_balance :
    ∀ (cs : List Char) (i : Nat) (stack : List Nat) (acc ps : List (Nat × Nat)),
      decodeLoop cs i stack acc = .ok ps →
      (∀ n, closesCount (cs.take n) ≤ stack.length + opensCount (cs.take n)) ∧
      stack.length + opensCount cs = closesCount cs := by
  intro cs
  induction cs with
  | nil =>
    intro i stack acc ps h
    cases stack with
    | nil =>
      refine ⟨fun n => ?_, ?_⟩ <;> simp [opensCount, closesCount]
    | cons j rest =>
      exact absurd h (by simp [decodeLoop])
  | cons c cs ih =>
    intro i stack acc ps h
    simp only [decodeLoop] at h
    by_cases hc : c = '('
    · subst hc
      simp only [reduceIte] at h
      obtain ⟨h1, h2⟩ := ih (i + 1) (i :: stack) acc ps h
      refine ⟨fun n => ?_, ?_⟩
      · cases n with
        | zero => simp [closesCount]
        | succ n =>
          have h3 := h1 n
          simp only [List.take_succ_cons, opensCount, closesCount, List.length_cons, reduceIte, if_open_close, if_close_open] at h3 ⊢
          omega
      · simp only [opensCount, closesCount, List.length_cons, reduceIte, if_open_close, if_close_open] at h2 ⊢
        omega
    · by_cases hc2 : c = ')'
      · subst hc2
        simp only [reduceIte] at h
        cases stack with
        | nil => exact absurd h (by simp)
        | cons j rest =>
          simp only [] at h
          obtain ⟨h1, h2⟩ := ih (i + 1) rest ((j, i) :: acc) ps h
          refine ⟨fun n => ?_, ?_⟩
          · cases n with
            | zero => simp [closesCount]
            | succ n =>
              have h3 := h1 n
              simp only [List.take_succ_cons, opensCount, closesCount, List.length_cons] at h3 ⊢
              norm_num at h3 ⊢
              omega
          · simp only [opensCount, closesCount, List.length_cons, reduceIte, if_open_close, if_close_open] at h2 ⊢
            omega
      · rw [if_neg hc, if_neg hc2] at h
        obtain ⟨h1, h2⟩ := ih (i + 1) stack acc ps h
        refine ⟨fun n => ?_, ?_⟩
        · cases n with
          | zero => simp [closesCount]
          | succ n =>
            have h3 := h1 n
            simp only [List.take_succ_cons, opensCount, closesCount, if_neg hc, if_neg hc2] at h3 ⊢
            omega
        · simp only [opensCount, closesCount, if_neg hc, if_neg hc2] at h2 ⊢
          omega

theorem decodeLoop_error_format :
    ∀ (cs : List Char) (i : Nat) (stack : List Nat) (acc : List (Nat × Nat)) (e : PyError),
      decodeLoop cs i stack acc = .error e → e = .formatError := by
  intro cs
  induction cs with
  | nil =>
    intro i stack acc e h
    cases stack with
    | nil => exact absurd h (by simp [decodeLoop])
    | cons j rest =>
      simp only [decodeLoop, Except.error.injEq] at h
      exact h.symm
  | cons c cs ih =>
    intro i stack acc e h
    simp only [decodeLoop] at h
    by_cases hc : c = '('
    · rw [if_pos hc] at h
      exact ih _ _ _ _ h
    · by_cases hc2 : c = ')'
      · rw [if_neg hc, if_pos hc2] at h
        cases stack with
        | nil =>
          simp only [Except.error.injEq] at h
          exact h.symm
        | cons j rest => exact ih _ _ _ _ h
      · rw [if_neg hc, if_neg hc2] at h
        exact ih _ _ _ _ h

theorem evaluateParse_error_cases (stdoutText : String) (e : PyError)
    (h : evaluateParse stdoutText = .error e) :
    e = .indexError ∨ e = .valueError := by
  unfold evaluateParse at h
  split at h
  · simp only [Except.error.injEq] at h
    exact Or.inl h.symm
  · split at h
    · simp only [Except.error.injEq] at h
      exact Or.inr h.symm
    · split at h
      · simp only [Except.error.injEq] at h
        exact Or.inr h.symm
      · exact absurd h (by simp)

/-- C6: decoding a fold notation with an unmatched closing symbol (some
prefix has more closes than opens) or with unmatched opening symbols at
the end (total opens differ from total closes) fails with FormatError —
not with another error, and without returning a partial pair list. -/
theorem C6_unbalanced_fails (s : String)
    (h : (∃ n, opensCount (s.data.take n) < closesCount (s.data.take n)) ∨
      opensCount s.data ≠ closesCount s.data) :
    base_pairs_from_dot_bracket s = .error .formatError := by
  cases hres : base_pairs_from_dot_bracket s with
  | ok ps =>
    have hbal := decodeLoop_ok_balance s.data 0 [] [] ps hres
    simp only [List.length_nil, Nat.zero_add] at hbal
    obtain ⟨h1, h2⟩ := hbal
    rcases h with ⟨n, hn⟩ | hneq
    · exact absurd (h1 n) (by omega)
    · exact absurd h2 (by omega)
  | error e =>
    have he := decodeLoop_error_format s.data 0 [] [] e hres
    rw [he]

theorem C6_witness :
    ((∃ n, opensCount ((".)" : String).data.take n) <
        closesCount ((".)" : String).data.take n)) ∨
      opensCount (".)" : String).data ≠ closesCount (".)" : String).data) ∧
    base_pairs_from_dot_bracket ".)" = .error .formatError :=
  ⟨Or.inl ⟨2, by decide⟩, C6_unbalanced_fails ".)" (Or.inl ⟨2, by decide⟩)⟩

/-- C5: decoding the fold notation `(((.((((.......)).))))).....` by the
left-to-right stack scan yields exactly the base pairs (0,22), (1,21),
(2,20), (4,19), (5,18), (6,16), (7,15), and no pair touches the trailing
unpaired run (positions 23–27). -/
theorem C5_decode_example :
    ∃ ps, base_pairs_from_dot_bracket "(((.((((.......)).)))))....." = .ok ps ∧
      List.Perm ps [(0, 22), (1, 21), (2, 20), (4, 19), (5, 18), (6, 16), (7, 15)] ∧
      ∀ p ∈ ps, p.1 < 23 ∧ p.2 < 23 :=
  ⟨[(7, 15), (6, 16), (5, 18), (4, 19), (2, 20), (1, 21), (0, 22)],
    by decide, by decide, by decide⟩

/-- C3: in any state other than JOINED, each result accessor
(`get_free_energy`, `get_mfe`, `get_dot_bracket`, `get_base_pairs`)
fails with StateError and produces no result (for `get_mfe` not even the
deprecation warning is emitted, since the decorator fires first). -/
theorem C3_accessors_require_joined (app : RNAfoldApp) (h : app.state ≠ .JOINED) :
    app.get_free_energy = .error .stateError ∧
    app.get_mfe = ([], .error .stateError) ∧
    app.get_dot_bracket = .error .stateError ∧
    app.get_base_pairs = .error .stateError := by
  refine ⟨?_, ?_, ?_, ?_⟩ <;>
    simp [RNAfoldApp.get_free_energy, RNAfoldApp.get_mfe,
      RNAfoldApp.get_dot_bracket, RNAfoldApp.get_base_pairs, h]

theorem C3_witness :
    (RNAfoldApp.initDefault "CGACGUAGAUGCUAGCUGACUCGAUGC").state ≠ AppState.JOINED ∧
    ((RNAfoldApp.initDefault "CGACGUAGAUGCUAGCUGACUCGAUGC").get_free_energy =
        .error .stateError ∧
      (RNAfoldApp.initDefault "CGACGUAGAUGCUAGCUGACUCGAUGC").get_mfe =
        ([], .error .stateError) ∧
      (RNAfoldApp.initDefault "CGACGUAGAUGCUAGCUGACUCGAUGC").get_dot_bracket =
        .error .stateError ∧
      (RNAfoldApp.initDefault "CGACGUAGAUGCUAGCUGACUCGAUGC").get_base_pairs =
        .error .stateError) :=
  ⟨by decide, C3_accessors_require_joined _ (by decide)⟩

/-- C9: `XTCFile.output_value_index` is a fixed lookup — 0 for "coord",
1 for "time", 3 for "box", `None` for every other string — and index 2
is never produced. -/
theorem C9_output_value_index_lookup :
    output_value_index "coord" = some 0 ∧
    output_value_index "time" = some 1 ∧
    output_value_index "box" = some 3 ∧
    (∀ v, v ≠ "coord" → v ≠ "time" → v ≠ "box" → output_value_index v = none) ∧
    (∀ v, output_value_index v ≠ some 2) := by
  refine ⟨by decide, by decide, by decide, ?_, ?_⟩
  · intro v h1 h2 h3
    simp [output_value_index, h1, h2, h3]
  · intro v
    unfold output_value_index
    by_cases h1 : v = "coord" <;> by_cases h2 : v = "time" <;>
      by_cases h3 : v = "box" <;> simp [h1, h2, h3]

theorem C9_witness :
    output_value_index "velocity" = none ∧ output_value_index "velocity" ≠ some 2 :=
  ⟨C9_output_value_index_lookup.2.2.2.1 "velocity" (by decide) (by decide) (by decide),
    C9_output_value_index_lookup.2.2.2.2 "velocity"⟩

/-- C8: constructing with the defaulted parameters uses temperature 37
(stored also as the string "37") and binary name "RNAfold"; the input is
the FASTA-like record handed to stdin (`accepts_stdin` is true), and
`run` sets the argument list to exactly `["--noPS"]`. -/
theorem C8_defaults_and_invocation (sequence : String) :
    (RNAfoldApp.initDefault sequence).temperature = 37 ∧
    (RNAfoldApp.initDefault sequence).temperatureStr = "37" ∧
    (RNAfoldApp.initDefault sequence).binPath = "RNAfold" ∧
    (RNAfoldApp.initDefault sequence).inputRecord = fastaRecord sequence ∧
    RNAfoldApp.accepts_stdin = true ∧
    ((RNAfoldApp.initDefault sequence).run).arguments = ["--noPS"] := by
  have h37 : toString (37 : Int) = "37" := by decide
  exact ⟨rfl, h37, rfl, rfl, rfl, rfl⟩

theorem C8_witness :
    (RNAfoldApp.initDefault "ACGU").temperature = 37 ∧
    (RNAfoldApp.initDefault "ACGU").temperatureStr = "37" ∧
    (RNAfoldApp.initDefault "ACGU").binPath = "RNAfold" ∧
    (RNAfoldApp.initDefault "ACGU").inputRecord = fastaRecord "ACGU" ∧
    RNAfoldApp.accepts_stdin = true ∧
    ((RNAfoldApp.initDefault "ACGU").run).arguments = ["--noPS"] :=
  C8_defaults_and_invocation "ACGU"

/-- C1 counterexample: on a stdout whose third line is exactly
`(((.((((.......)).)))))....( -1.30)` the code splits at the first
space, which sits inside the parenthesised energy group, so the returned
notation keeps the trailing `(` (it is not `(((.((((.......)).))))).....`)
and stripping the token's first and last characters removes the minus
sign, giving +1.3 instead of -1.3. -/
theorem C1_counterexample :
    evaluateParse "banner\nCGACGUAGAUGCUAGCUGACUCGAUGC\n(((.((((.......)).)))))....( -1.30)" =
      .ok ("(((.((((.......)).)))))....(", mkRat 13 10) ∧
    ("(((.((((.......)).)))))....(" : String) ≠ "(((.((((.......)).)))))....." ∧
    (mkRat 13 10 : ℚ) ≠ mkRat (-13) 10 ∧
    (mkRat (-13) 10 : ℚ) = -13 / 10 := by
  refine ⟨by decide, by decide, by decide, ?_⟩
  rw [Rat.mkRat_eq_div]
  norm_num

/-- C1 amended: for every stdout whose third line is the string
`(((.((((.......)).)))))....( -1.30)`, the evaluate parsing step yields
free energy exactly +1.3 and fold notation
`(((.((((.......)).)))))....(`. -/
theorem C1_parse_third_line (stdoutText : String)
    (h : (pySplitlines stdoutText).get? 2 =
      some "(((.((((.......)).)))))....( -1.30)") :
    evaluateParse stdoutText =
      .ok ("(((.((((.......)).)))))....(", mkRat 13 10) ∧
    (mkRat 13 10 : ℚ) = 13 / 10 := by
  constructor
  · unfold evaluateParse
    rw [h]
    decide
  · rw [Rat.mkRat_eq_div]
    norm_num

theorem C1_witness :
    (pySplitlines "banner\nseq\n(((.((((.......)).)))))....( -1.30)").get? 2 =
      some "(((.((((.......)).)))))....( -1.30)" ∧
    (evaluateParse "banner\nseq\n(((.((((.......)).)))))....( -1.30)" =
        .ok ("(((.((((.......)).)))))....(", mkRat 13 10) ∧
      (mkRat 13 10 : ℚ) = 13 / 10) :=
  ⟨by decide, C1_parse_third_line _ (by decide)⟩

/-- C4 counterexample: a captured stdout with fewer than three lines
makes the evaluate step fail with IndexError (from `lines[2]`), which is
not FormatError. -/
theorem C4_counterexample :
    (pySplitlines "").length < 3 ∧
    evaluateParse "" = .error .indexError ∧
    PyError.indexError ≠ PyError.formatError := by
  exact ⟨by decide, by decide, by decide⟩

/-- C4 amended: when the evaluate parsing step fails it fails with
IndexError (expected result line absent) or ValueError (line without a
space, or malformed numeric token) — never FormatError — and the join
wrapper transitions the Job to FAILED, surfacing that same error. -/
theorem C4_parse_failure (stdoutText : String) (app : RNAfoldApp) (e : PyError)
    (hrun : app.state = .RUNNING)
    (he : evaluateParse stdoutText = .error e) :
    (app.join stdoutText).1.state = .FAILED ∧
    (app.join stdoutText).2 = some e ∧
    (e = .indexError ∨ e = .valueError) ∧
    e ≠ .formatError := by
  have hcases := evaluateParse_error_cases stdoutText e he
  refine ⟨?_, ?_, hcases, ?_⟩
  · simp [RNAfoldApp.join, RNAfoldApp.evaluate, hrun, he]
  · simp [RNAfoldApp.join, RNAfoldApp.evaluate, hrun, he]
  · rcases hcases with h | h <;> subst h <;> decide

theorem C4_witness :
    ({ RNAfoldApp.initDefault "ACGU" with state := .RUNNING } : RNAfoldApp).state =
      AppState.RUNNING ∧
    evaluateParse "" = .error .indexError ∧
    ((({ RNAfoldApp.initDefault "ACGU" with state := .RUNNING } : RNAfoldApp).join
        "").1.state = .FAILED ∧
      (({ RNAfoldApp.initDefault "ACGU" with state := .RUNNING } : RNAfoldApp).join
        "").2 = some PyError.indexError ∧
      (PyError.indexError = .indexError ∨ PyError.indexError = .valueError) ∧
      PyError.indexError ≠ .formatError) :=
  ⟨by decide, by decide,
    C4_parse_failure "" { RNAfoldApp.initDefault "ACGU" with state := .RUNNING }
      .indexError (by decide) (by decide)⟩

/-- C2 (code bug): on the docstring example run the app joins cleanly
into `exampleJoined` and `get_free_energy` returns -1.3; `get_mfe`
emits its deprecation warning but then evaluates `self._mfe`, an
attribute that `evaluate` never assigns (it assigns
`self._free_energy`), so it raises AttributeError instead of delegating
to `get_free_energy`. -/
theorem C2_get_mfe_not_delegating :
    ((RNAfoldApp.initDefault "CGACGUAGAUGCUAGCUGACUCGAUGC").start.map
      (fun started => started.join exampleStdout)) = .ok (exampleJoined, none) ∧
    exampleJoined.get_free_energy = .ok (mkRat (-13) 10, exampleJoined) ∧
    exampleJoined.get_mfe = ([.deprecationWarning], .error .attributeError) := by
  refine ⟨by decide, by decide, by decide⟩

/-- C7: `compute_secondary_structure` performs the full lifecycle —
construct with the default temperature 37, start, join — and returns
exactly the (dot bracket, free energy) pair that `get_dot_bracket` and
`get_free_energy` yield on the joined app.  `stdoutText` is the output
of the external binary; the hypothesis says the run's output parses. -/
theorem C7_compute_secondary_structure (stdoutText sequence binPath db : String)
    (fe : ℚ) (h : evaluateParse stdoutText = .ok (db, fe)) :
    ∃ joined : RNAfoldApp,
      ((RNAfoldApp.init sequence 37 binPath).start.map
        (fun started => started.join stdoutText)) = .ok (joined, none) ∧
      joined.state = .JOINED ∧
      joined.get_dot_bracket = .ok (db, joined) ∧
      joined.get_free_energy = .ok (fe, joined) ∧
      RNAfoldApp.compute_secondary_structure stdoutText sequence binPath =
        .ok (db, fe) := by
  have hstart : (RNAfoldApp.init sequence 37 binPath).start =
      .ok ⟨sequence, 37, toString (37 : Int), binPath, fastaRecord sequence,
        ["--noPS"], .RUNNING, none, none, none, none⟩ := rfl
  have hjoin : (⟨sequence, 37, toString (37 : Int), binPath, fastaRecord sequence,
        ["--noPS"], .RUNNING, none, none, none, none⟩ : RNAfoldApp).join stdoutText =
      (⟨sequence, 37, toString (37 : Int), binPath, fastaRecord sequence,
        ["--noPS"], .JOINED, some stdoutText, some fe, some db, none⟩, none) := by
    unfold RNAfoldApp.join RNAfoldApp.evaluate
    rw [h]
    rfl
  refine ⟨⟨sequence, 37, toString (37 : Int), binPath, fastaRecord sequence,
    ["--noPS"], .JOINED, some stdoutText, some fe, some db, none⟩, ?_, rfl, rfl, rfl, ?_⟩
  · rw [hstart, Except.map, hjoin]
  · simp only [RNAfoldApp.compute_secondary_structure, hstart, hjoin,
      Except.instMonad, Except.bind, RNAfoldApp.get_dot_bracket,
      RNAfoldApp.get_free_energy, reduceIte]

theorem C7_witness :
    evaluateParse exampleStdout =
      .ok ("(((.((((.......)).)))))....", mkRat (-13) 10) ∧
    (∃ joined : RNAfoldApp,
      ((RNAfoldApp.init "CGACGUAGAUGCUAGCUGACUCGAUGC" 37 "RNAfold").start.map
        (fun started => started.join exampleStdout)) = .ok (joined, none) ∧
      joined.state = .JOINED ∧
      joined.get_dot_bracket = .ok ("(((.((((.......)).)))))....", joined) ∧
      joined.get_free_energy = .ok (mkRat (-13) 10, joined) ∧
      RNAfoldApp.compute_secondary_structure exampleStdout
        "CGACGUAGAUGCUAGCUGACUCGAUGC" "RNAfold" =
        .ok ("(((.((((.......)).)))))....", mkRat (-13) 10)) :=
  ⟨by decide, C7_compute_secondary_structure exampleStdout
    "CGACGUAGAUGCUAGCUGACUCGAUGC" "RNAfold" "(((.((((.......)).)))))...."
    (mkRat (-13) 10) (by decide)⟩

/-- C10: in the JOINED state the result accessors are read-only and
deterministic — a successful call returns the app with every field
unchanged, and a second call on the returned app yields the same value
again; `get_base_pairs` recomputes its result from the cached notation
via `base_pairs_from_dot_bracket` on every call instead of caching it. -/
theorem C10_accessors_readonly (app : RNAfoldApp) (h : app.state = .JOINED) :
    (∀ fe app', app.get_free_energy = .ok (fe, app') →
      app' = app ∧ app'.get_free_energy = .ok (fe, app')) ∧
    (∀ db app', app.get_dot_bracket = .ok (db, app') →
      app' = app ∧ app'.get_dot_bracket = .ok (db, app')) ∧
    (∀ ps app', app.get_base_pairs = .ok (ps, app') →
      app' = app ∧ app'.get_base_pairs = .ok (ps, app') ∧
      ∃ db, app.dotbracketAttr = some db ∧
        base_pairs_from_dot_bracket db = .ok ps) := by
  refine ⟨?_, ?_, ?_⟩
  · intro fe app' hget
    unfold RNAfoldApp.get_free_energy at hget ⊢
    rw [if_pos h] at hget
    cases hattr : app.freeEnergyAttr with
    | none => rw [hattr] at hget; cases hget
    | some v =>
      rw [hattr] at hget
      simp only [Except.ok.injEq, Prod.mk.injEq] at hget
      obtain ⟨hv, ha⟩ := hget
      subst ha
      subst hv
      exact ⟨rfl, by rw [if_pos h, hattr]⟩
  · intro db app' hget
    unfold RNAfoldApp.get_dot_bracket at hget ⊢
    rw [if_pos h] at hget
    cases hattr : app.dotbracketAttr with
    | none => rw [hattr] at hget; cases hget
    | some v =>
      rw [hattr] at hget
      simp only [Except.ok.injEq, Prod.mk.injEq] at hget
      obtain ⟨hv, ha⟩ := hget
      subst ha
      subst hv
      exact ⟨rfl, by rw [if_pos h, hattr]⟩
  · intro ps app' hget
    unfold RNAfoldApp.get_base_pairs at hget ⊢
    rw [if_pos h] at hget
    cases hattr : app.dotbracketAttr with
    | none => rw [hattr] at hget; cases hget
    | some v =>
      rw [hattr] at hget
      cases hbp : base_pairs_from_dot_bracket v with
      | error e => exact absurd hget (by simp [hbp])
      | ok ps' =>
        simp only [hbp, Except.ok.injEq, Prod.mk.injEq] at hget
        obtain ⟨hv, ha⟩ := hget
        subst ha
        subst hv
        exact ⟨rfl, by rw [if_pos h, hattr]; simp only [hbp], ⟨v, rfl, hbp⟩⟩

theorem C10_witness :
    exampleJoined.state = AppState.JOINED ∧
    ((∀ fe app', exampleJoined.get_free_energy = .ok (fe, app') →
        app' = exampleJoined ∧ app'.get_free_energy = .ok (fe, app')) ∧
      (∀ db app', exampleJoined.get_dot_bracket = .ok (db, app') →
        app' = exampleJoined ∧ app'.get_dot_bracket = .ok (db, app')) ∧
      (∀ ps app', exampleJoined.get_base_pairs = .ok (ps, app') →
        app' = exampleJoined ∧ app'.get_base_pairs = .ok (ps, app') ∧
        ∃ db, exampleJoined.dotbracketAttr = some db ∧
          base_pairs_from_dot_bracket db = .ok ps)) :=
  ⟨rfl, C10_accessors_readonly exampleJoined rfl⟩
